import Mathlib

/-!
# Verification of `cubedash/_model.py` (datacube-explorer)

A shallow embedding of the geometric summary pipeline in
`src/cubedash/_model.py`: the Reprojector (`_get_footprint`), the Region
Clipper (`_region_geometry_function` / `region_geometry_cut`), the GeoJSON
Assembler (`get_footprint_geojson`, `_get_regions_geojson`,
`get_regions_geojson`), the last-updated override logic
(`get_last_updated`), and a model of the TTL-memoizing cache layer.

Shapely geometries are modelled semantically as finite sets of integer
lattice points: `pts` is a finite sample of the geometry's point set and
`bpts` of its boundary (outer ring plus inner-hole rings).  Under this
model `intersection` is set intersection, `intersects` is non-empty
intersection, and a geometry is falsy (Python truthiness) exactly when its
point set is empty, which matches shapely's `__bool__`/`is_empty`.
Coordinate transforms (pyproj) act point-wise, as `shapely.ops.transform`
applies them.

The backend (`SummaryStore`, the product index, `RegionInfo`, the override
file and `dateutil` parsing) is repository/third-party code not present
under `src/`; it is modelled from the spec as an explicit environment of
pure functions.
-/

namespace Cubedash

/-- A point in display or source coordinates (idealised as integers). -/
abbrev Pt := Int × Int

/-- Semantic model of a shapely geometry: a finite sample `pts` of its point
set and `bpts` of its boundary rings (outer ring plus inner holes). -/
structure Geometry where
  pts : Finset Pt
  bpts : Finset Pt
deriving DecidableEq

/-- `geometry.boundary` in shapely: the boundary rings as a geometry. -/
def Geometry.boundary (g : Geometry) : Geometry :=
  { pts := g.bpts, bpts := ∅ }

/-- `a.intersects(b)` in shapely: the two point sets share a point.
`shapely.prepared.prep` only speeds this test up; its result is unchanged. -/
def Geometry.intersectsGeom (a b : Geometry) : Prop :=
  a.pts ∩ b.pts ≠ ∅

instance (a b : Geometry) : Decidable (a.intersectsGeom b) := by
  unfold Geometry.intersectsGeom; infer_instance

/-- `a.intersection(b)` in shapely: set intersection of the point sets; the
boundary sample keeps the boundary points that survive. -/
def Geometry.intersection (a b : Geometry) : Geometry :=
  { pts := a.pts ∩ b.pts, bpts := (a.bpts ∪ b.bpts) ∩ (a.pts ∩ b.pts) }

/-- `shapely.ops.transform(f, g)`: apply a coordinate transform point-wise,
as `_get_footprint` does with the pyproj projection lambda. -/
def Geometry.transformGeom (f : Pt → Pt) (g : Geometry) : Geometry :=
  { pts := g.pts.image f, bpts := g.bpts.image f }

/-- Python truthiness of a shapely geometry: falsy iff empty. -/
def Geometry.isFalsy (g : Geometry) : Prop := g.pts = ∅

instance (g : Geometry) : Decidable g.isFalsy := by
  unfold Geometry.isFalsy; infer_instance

/-- Modelled from the spec: `TimePeriodOverview` (from `cubedash.summary`,
not under `src/`), per §3 PeriodSummary: `dataset_count`,
`footprint_geometry` (or absent), `footprint_crs`, `footprint_count`
(datasets contributing to the footprint), and `region_dataset_counts`
(region code → dataset count). -/
structure TimePeriodOverview where
  dataset_count : Nat
  footprint_geometry : Option Geometry
  footprint_crs : String
  footprint_count : Nat
  region_dataset_counts : List (String × Nat)
deriving DecidableEq

/-- Modelled from the spec: `RegionInfo` (from `cubedash.summary._extents`,
not under `src/`), per §3 RegionCatalog: a scheme name, a unit label, a
labelling function, and a region-code → geometry function that the catalog
may fail to supply (§4.3: "absence if the catalog could not supply a
geometry function"). -/
structure RegionInfo where
  name : String
  unit_label : String
  region_label : String → String
  geographic_extent : Option (String → Geometry)

/-- A catalog product; only its name is consulted by this module. -/
structure Product where
  name : String
deriving DecidableEq

/-- Modelled from the spec: the external collaborators of `_model.py`
(§6) — the `SummaryStore` reads, the product index, per-product region
catalogs, the pyproj transform family, the override file and its
timestamp parser, and the backend last-updated value. -/
structure Env where
  store_get : String → Option Int → Option Int → Option Int → Option TimePeriodOverview
  store_get_or_update : String → Option Int → Option Int → Option Int → Option TimePeriodOverview
  get_by_name : String → Option Product
  region_info_for : Product → Option RegionInfo
  projT : String → String → Pt → Pt
  generated_txt : Option String
  parse_date : String → Option Int
  store_last_updated : Int

/-- `get_summary` (lines 46–56, without the memoize wrapper): a day-level
request may update the summary; otherwise a pure read. -/
def get_summary (env : Env) (product_name : String)
    (year month day : Option Int) : Option TimePeriodOverview :=
  match day with
  | some _ => env.store_get_or_update product_name year month day
  | none => env.store_get product_name year month day

/-- `_get_footprint` (lines 166–187): absence for a falsy period, a zero
dataset count, or a falsy (absent or empty) footprint geometry; otherwise
the footprint transformed point-wise from its recorded CRS to the
geographic display CRS `epsg:4326`. -/
def get_footprint_of_period (env : Env) (period : Option TimePeriodOverview) :
    Option Geometry :=
  match period with
  | none => none
  | some p =>
    if p.dataset_count = 0 then none
    else
      match p.footprint_geometry with
      | none => none
      | some g =>
        if g.isFalsy then none
        else some (g.transformGeom (env.projT p.footprint_crs "epsg:4326"))

/-- The footprint Feature emitted by `get_footprint_geojson` (lines
122–130): `type`, geometry, and the properties dict. -/
structure FootprintFeature where
  type : String
  geometry : Geometry
  dataset_count : Nat
  product_name : String
  time_spec : List (Option Int)
deriving DecidableEq

/-- Lines 118–130 of `get_footprint_geojson`, with the already-computed
reprojected footprint as the local variable `footprint`: the truthiness
guard `if not footprint` rejects both an absent and an empty geometry;
otherwise a Feature is built whose `dataset_count` property is the
period's `footprint_count`. -/
def footprint_feature (product_name : String) (year month day : Option Int)
    (period : TimePeriodOverview) (footprint : Option Geometry) :
    Option FootprintFeature :=
  match footprint with
  | none => none
  | some fp =>
    if fp.isFalsy then none
    else
      some { type := "Feature"
             geometry := fp
             dataset_count := period.footprint_count
             product_name := product_name
             time_spec := [year, month, day] }

/-- `get_footprint_geojson` (lines 108–130, without the memoize wrapper). -/
def get_footprint_geojson (env : Env) (product_name : String)
    (year month day : Option Int) : Option FootprintFeature :=
  match get_summary env product_name year month day with
  | none => none
  | some period =>
    footprint_feature product_name year month day period
      (get_footprint_of_period env (some period))

/-- `region_geometry_cut` (lines 230–241): cut a region's extent down to
the footprint, but only pay for a true intersection when the footprint's
boundary touches the extent. -/
def region_geometry_cut (footprint : Geometry) (region_shape : String → Geometry)
    (region_code : String) : Geometry :=
  let shapely_extent := region_shape region_code
  if (footprint.boundary).intersectsGeom shapely_extent then
    footprint.intersection shapely_extent
  else
    shapely_extent

/-- The Python value `_region_geometry_function` evaluates to when it is
not `None`: either a callable per-region geometry function (the catalog's
own, or the `region_geometry_cut` closure over a present catalog
function), or the closure whose captured `region_shape` is `None` — still
a truthy Python function object, but one that raises `TypeError` at
`region_shape(region_code)` (line 234) when called. -/
inductive RegionGeometryFn where
  | callable (f : String → Geometry)
  | brokenClosure

/-- `_region_geometry_function` (lines 222–243): with no footprint the raw
catalog attribute is returned directly (`None` when absent, line 196's
falsiness check catches that); with a footprint, the `region_geometry_cut`
closure is returned unconditionally — truthy even when the captured
catalog geometry function is absent. -/
def region_geometry_function (region_info : RegionInfo) (footprint : Option Geometry) :
    Option RegionGeometryFn :=
  match footprint with
  | none => region_info.geographic_extent.map RegionGeometryFn.callable
  | some f =>
    match region_info.geographic_extent with
    | none => some .brokenClosure
    | some region_shape => some (.callable (region_geometry_cut f region_shape))

/-- A concrete period summary used to exercise the pipeline: 3 datasets,
2 of them contributing to a two-point footprint, two region codes. -/
def demoPeriod : TimePeriodOverview :=
  { dataset_count := 3
    footprint_geometry := some ⟨{(0, 0), (1, 0)}, {(0, 0), (1, 0)}⟩
    footprint_crs := "epsg:32755"
    footprint_count := 2
    region_dataset_counts := [("r1", 1), ("r2", 2)] }

/-- A concrete region-tiling: tile `r1` interior to the demo footprint,
every other tile straddling its boundary. -/
def demoExtent : String → Geometry := fun c =>
  if c = "r1" then ⟨{(0, 0)}, {(0, 0)}⟩ else ⟨{(1, 0), (5, 5)}, {(5, 5)}⟩

/-- A concrete region catalog over `demoExtent`. -/
def demoRegionInfo : RegionInfo :=
  { name := "scenes"
    unit_label := "scene"
    region_label := fun c => "Scene " ++ c
    geographic_extent := some demoExtent }

/-- A concrete environment: one product `demo_scene` with `demoPeriod`,
identity reprojection, no override file. -/
def demoEnv : Env :=
  { store_get := fun p _ _ _ => if p = "demo_scene" then some demoPeriod else none
    store_get_or_update := fun p _ _ _ => if p = "demo_scene" then some demoPeriod else none
    get_by_name := fun p => if p = "demo_scene" then some ⟨"demo_scene"⟩ else none
    region_info_for := fun _ => some demoRegionInfo
    projT := fun _ _ pt => pt
    generated_txt := none
    parse_date := fun _ => none
    store_last_updated := 100 }

/-- The footprint Feature `get_footprint_geojson` produces on `demoEnv`:
its `dataset_count` property is the period's `footprint_count` (2), not its
`dataset_count` (3). -/
def demoFeature : FootprintFeature :=
  { type := "Feature"
    geometry := ⟨{(0, 0), (1, 0)}, {(0, 0), (1, 0)}⟩
    dataset_count := 2
    product_name := "demo_scene"
    time_spec := [none, none, none] }

/-- A Python exception escaping this module: `RuntimeError` (line 145),
the `ValueError` that `min()`/`max()` raise on an empty sequence, or the
`TypeError` raised by calling a `None` `region_shape` (line 234). -/
inductive PyError where
  | runtimeError (msg : String) (arg : String)
  | valueError (msg : String)
  | typeError (msg : String)
deriving DecidableEq

/-- One region Feature of the assembled FeatureCollection (lines 209–216). -/
structure RegionFeature where
  type : String
  geometry : Geometry
  region_code : String
  label : String
  count : Nat
deriving DecidableEq

/-- The assembled region FeatureCollection (lines 200–219): collection-level
properties and the per-region Features. -/
structure RegionCollection where
  type : String
  region_type : String
  region_unit_label : String
  min_count : Nat
  max_count : Nat
  features : List RegionFeature
deriving DecidableEq

/-- Python `Counter` indexing `region_counts[region_code]`: the stored
count, or 0 for a missing key. -/
def counterGet : List (String × Nat) → String → Nat
  | [], _ => 0
  | (k, v) :: rest, code => if k = code then v else counterGet rest code

/-- One entry of the `features` list comprehension (lines 209–217) when
the region-geometry value is callable. -/
def region_feature (region_geometry : String → Geometry) (region_info : RegionInfo)
    (region_counts : List (String × Nat)) (region_code : String) : RegionFeature :=
  { type := "Feature"
    geometry := region_geometry region_code
    region_code := region_code
    label := region_info.region_label region_code
    count := counterGet region_counts region_code }

/-- The Python call `region_geometry(region_code)`: a `TypeError` when the
closure's captured `region_shape` is `None`. -/
def callRegionGeometry : RegionGeometryFn → String → Except PyError Geometry
  | .callable f, region_code => .ok (f region_code)
  | .brokenClosure, _ => .error (.typeError "NoneType object is not callable")

/-- One entry of the `features` list comprehension (lines 209–217): the
`region_geometry(region_code)` call may raise. -/
def region_feature_call (region_geometry : RegionGeometryFn) (region_info : RegionInfo)
    (region_counts : List (String × Nat)) (region_code : String) :
    Except PyError RegionFeature :=
  (callRegionGeometry region_geometry region_code).map (fun g =>
    { type := "Feature"
      geometry := g
      region_code := region_code
      label := region_info.region_label region_code
      count := counterGet region_counts region_code })

/-- `_get_regions_geojson` (lines 190–219): absence when the
region-geometry value is falsy (`None`); otherwise `min`/`max` over the
counts (Python's `min()`/`max()` raise `ValueError` on an empty mapping),
then one Feature per region code of the counts mapping, where each
`region_geometry(region_code)` call may raise `TypeError`. -/
def get_regions_geojson_inner (region_counts : List (String × Nat))
    (footprint : Option Geometry) (region_info : RegionInfo) :
    Except PyError (Option RegionCollection) :=
  match region_geometry_function region_info footprint with
  | none => .ok none
  | some region_geometry =>
    match region_counts.map Prod.snd with
    | [] => .error (.valueError "min() arg is an empty sequence")
    | v :: vs =>
      match (region_counts.map Prod.fst).mapM
          (region_feature_call region_geometry region_info region_counts) with
      | .error e => .error e
      | .ok features =>
        .ok (some
          { type := "FeatureCollection"
            region_type := region_info.name
            region_unit_label := region_info.unit_label
            min_count := vs.foldl min v
            max_count := vs.foldl max v
            features := features })

/-- `get_regions_geojson` (lines 133–163, without the memoize wrapper):
absence for a missing summary, empty region counts, or missing region
catalog; a `RuntimeError` when a summary exists for an unresolvable
product. -/
def get_regions_geojson (env : Env) (product_name : String)
    (year month day : Option Int) : Except PyError (Option RegionCollection) :=
  match get_summary env product_name year month day with
  | none => .ok none
  | some period =>
    match env.get_by_name product_name with
    | none =>
      .error (.runtimeError "Unknown product despite having a summary?" product_name)
    | some product =>
      if period.region_dataset_counts = [] then .ok none
      else
        match env.region_info_for product with
        | none => .ok none
        | some region_info =>
          get_regions_geojson_inner period.region_dataset_counts
            (get_footprint_of_period env (some period)) region_info

/-- `demoPeriod` with an empty region-counts mapping. -/
def noRegionsPeriod : TimePeriodOverview :=
  { demoPeriod with region_dataset_counts := [] }

/-- `demoEnv` whose only product's summary has empty region counts. -/
def noRegionsEnv : Env :=
  { demoEnv with
    store_get := fun p _ _ _ => if p = "demo_scene" then some noRegionsPeriod else none }

/-- `demoEnv` with no region catalog for any product. -/
def noCatalogEnv : Env :=
  { demoEnv with region_info_for := fun _ => none }

/-- `demoEnv` whose region catalog supplies no geometry function. -/
def noExtentEnv : Env :=
  { demoEnv with
    region_info_for := fun _ => some { demoRegionInfo with geographic_extent := none } }

/-- `demoPeriod` without a footprint geometry. -/
def noFootprintPeriod : TimePeriodOverview :=
  { demoPeriod with footprint_geometry := none }

/-- `demoEnv` with neither a catalog geometry function nor a footprint. -/
def noExtentNoFootprintEnv : Env :=
  { demoEnv with
    store_get := fun p _ _ _ => if p = "demo_scene" then some noFootprintPeriod else none
    region_info_for := fun _ => some { demoRegionInfo with geographic_extent := none } }

/-- `demoEnv` whose product index resolves nothing, despite the summary. -/
def ghostEnv : Env :=
  { demoEnv with get_by_name := fun _ => none }

/-- `get_last_updated` (lines 76–86, without the memoize wrapper): the
override file `generated.txt` is consulted first; its content is parsed as
a timestamp (a `ValueError` is caught); a parse failure logs a warning —
returned here as a flag — and falls through to the backend's value, as
does a missing file. -/
def get_last_updated (env : Env) : Int × Bool :=
  match env.generated_txt with
  | some date_text =>
    match env.parse_date date_text with
    | some d => (d, false)
    | none => (env.store_last_updated, true)
  | none => (env.store_last_updated, false)

/-- `demoEnv` with a parsable override file. -/
def overrideEnv : Env :=
  { demoEnv with
    generated_txt := some "2018-01-01"
    parse_date := fun t => if t = "2018-01-01" then some 17532 else none }

/-- `demoEnv` with an unparsable override file. -/
def badOverrideEnv : Env :=
  { demoEnv with generated_txt := some "garbage", parse_date := fun _ => none }

/-- The four cached queries of the spec's Summary Cache (§4.1). -/
inductive CachedQuery where
  | summary
  | datasetFootprints
  | lastUpdated
  | productList
deriving DecidableEq

/-- The TTL each query's memoize decorator carries in the code: 60 s for
`get_summary` and `get_datasets_geojson` (lines 46, 59), 120 s for
`get_last_updated` and `get_products_with_summaries` (lines 76, 89). -/
def queryTTL : CachedQuery → Nat
  | .summary => 60
  | .datasetFootprints => 60
  | .lastUpdated => 120
  | .productList => 120

/-- Modelled from the spec: the `cache.memoize(timeout=ttl)` layer of
`flask_caching` (external), per §4.1 — a key/value store of entries with
their storage time; a hit within the TTL window returns the stored value
without invoking the query; a miss or expiry invokes it and stores the
result.  Returns (value, new state, whether the query was invoked). -/
def memoGetOrCompute {κ β : Type} [DecidableEq κ] (ttl : Nat) (compute : κ → β)
    (st : List (κ × β × Nat)) (now : Nat) (k : κ) : β × List (κ × β × Nat) × Bool :=
  match st.find? (fun e => decide (e.1 = k) && decide (now < e.2.2 + ttl)) with
  | some e => (e.2.1, st, false)
  | none => (compute k, (k, compute k, now) :: st, true)

end Cubedash

namespace Cubedash

/-- Claim C2: a region whose extent does not meet the footprint's boundary
(outer ring plus holes) is returned unchanged by the Region Clipper's
per-region function — the cheap path, geometry equality. -/
theorem region_cut_cheap_path (footprint : Geometry)
    (region_shape : String → Geometry) (region_code : String)
    (h : ¬ (footprint.boundary).intersectsGeom (region_shape region_code)) :
    region_geometry_cut footprint region_shape region_code = region_shape region_code := by
  unfold region_geometry_cut
  simp only [if_neg h]

/-- Concrete run of the cheap path: a footprint whose boundary misses the
region's extent passes the extent through unchanged. -/
theorem region_cut_cheap_path_witness :
    ¬ (Geometry.boundary ⟨{(0, 0), (1, 0)}, {(1, 0)}⟩).intersectsGeom
        ((fun _ => (⟨{(5, 5)}, {(5, 5)}⟩ : Geometry)) "r1") ∧
    region_geometry_cut ⟨{(0, 0), (1, 0)}, {(1, 0)}⟩
        (fun _ => (⟨{(5, 5)}, {(5, 5)}⟩ : Geometry)) "r1" =
      (fun _ => (⟨{(5, 5)}, {(5, 5)}⟩ : Geometry)) "r1" :=
  ⟨by decide,
   region_cut_cheap_path ⟨{(0, 0), (1, 0)}, {(1, 0)}⟩
     (fun _ => (⟨{(5, 5)}, {(5, 5)}⟩ : Geometry)) "r1" (by decide)⟩

/-- Claim C3: a region whose extent meets the footprint's boundary gets the
true footprint∩extent intersection, and that result is contained in the
original region extent. -/
theorem region_cut_intersection_contained (footprint : Geometry)
    (region_shape : String → Geometry) (region_code : String)
    (h : (footprint.boundary).intersectsGeom (region_shape region_code)) :
    region_geometry_cut footprint region_shape region_code =
        footprint.intersection (region_shape region_code) ∧
      (region_geometry_cut footprint region_shape region_code).pts ⊆
        (region_shape region_code).pts := by
  unfold region_geometry_cut
  simp only [if_pos h]
  exact ⟨trivial, Finset.inter_subset_right⟩

/-- Concrete run of the costly path: a boundary-touching region is clipped
to the intersection, which lies inside the region extent. -/
theorem region_cut_intersection_contained_witness :
    (Geometry.boundary ⟨{(0, 0), (1, 0)}, {(1, 0)}⟩).intersectsGeom
        ((fun _ => (⟨{(1, 0), (5, 5)}, {(5, 5)}⟩ : Geometry)) "r1") ∧
    (region_geometry_cut ⟨{(0, 0), (1, 0)}, {(1, 0)}⟩
        (fun _ => (⟨{(1, 0), (5, 5)}, {(5, 5)}⟩ : Geometry)) "r1" =
          Geometry.intersection ⟨{(0, 0), (1, 0)}, {(1, 0)}⟩
            ((fun _ => (⟨{(1, 0), (5, 5)}, {(5, 5)}⟩ : Geometry)) "r1") ∧
      (region_geometry_cut ⟨{(0, 0), (1, 0)}, {(1, 0)}⟩
          (fun _ => (⟨{(1, 0), (5, 5)}, {(5, 5)}⟩ : Geometry)) "r1").pts ⊆
        ((fun _ => (⟨{(1, 0), (5, 5)}, {(5, 5)}⟩ : Geometry)) "r1").pts) :=
  ⟨by decide,
   region_cut_intersection_contained ⟨{(0, 0), (1, 0)}, {(1, 0)}⟩
     (fun _ => (⟨{(1, 0), (5, 5)}, {(5, 5)}⟩ : Geometry)) "r1" (by decide)⟩

/-- Claim C4: the Reprojector returns absence exactly when the period is
absent, its dataset count is zero, or its footprint geometry is absent or
empty (falsy, "no footprint geometry"); otherwise it returns the footprint
transformed point-wise from its recorded CRS into the geographic display
CRS `epsg:4326`. -/
theorem get_footprint_reprojects (env : Env) :
    get_footprint_of_period env none = none ∧
    (∀ p : TimePeriodOverview,
      (get_footprint_of_period env (some p) = none ↔
        (p.dataset_count = 0 ∨ p.footprint_geometry = none ∨
          ∃ g, p.footprint_geometry = some g ∧ g.isFalsy)) ∧
      (∀ g, p.footprint_geometry = some g → p.dataset_count ≠ 0 → ¬g.isFalsy →
        get_footprint_of_period env (some p) =
          some (g.transformGeom (env.projT p.footprint_crs "epsg:4326")))) := by
  refine ⟨rfl, fun p => ⟨⟨fun h => ?_, fun h => ?_⟩, fun g hg hc hf => ?_⟩⟩
  · by_cases hc : p.dataset_count = 0
    · exact Or.inl hc
    · cases hg : p.footprint_geometry with
      | none => exact Or.inr (Or.inl rfl)
      | some g =>
        refine Or.inr (Or.inr ⟨g, rfl, ?_⟩)
        by_contra hf
        simp [get_footprint_of_period, hc, hg, hf] at h
  · rcases h with hc | hg | ⟨g, hg, hf⟩
    · simp [get_footprint_of_period, hc]
    · simp [get_footprint_of_period, hg]
    · simp [get_footprint_of_period, hg, hf]
  · simp [get_footprint_of_period, hc, hg, hf]

/-- Concrete runs of the Reprojector on `demoEnv`: a zero-count summary and
an empty footprint give absence; `demoPeriod` reprojects its footprint. -/
theorem get_footprint_reprojects_witness :
    (get_footprint_of_period demoEnv
        (some { demoPeriod with dataset_count := 0 }) = none ↔
      ({ demoPeriod with dataset_count := 0 } : TimePeriodOverview).dataset_count = 0 ∨
        ({ demoPeriod with dataset_count := 0 } : TimePeriodOverview).footprint_geometry = none ∨
        ∃ g, ({ demoPeriod with dataset_count := 0 } : TimePeriodOverview).footprint_geometry
              = some g ∧ g.isFalsy) ∧
    (demoPeriod.footprint_geometry = some ⟨{(0, 0), (1, 0)}, {(0, 0), (1, 0)}⟩ ∧
      demoPeriod.dataset_count ≠ 0 ∧
      ¬(⟨{(0, 0), (1, 0)}, {(0, 0), (1, 0)}⟩ : Geometry).isFalsy ∧
      get_footprint_of_period demoEnv (some demoPeriod) =
        some ((⟨{(0, 0), (1, 0)}, {(0, 0), (1, 0)}⟩ : Geometry).transformGeom
          (demoEnv.projT demoPeriod.footprint_crs "epsg:4326"))) :=
  ⟨((get_footprint_reprojects demoEnv).2 { demoPeriod with dataset_count := 0 }).1,
   by decide, by decide, by decide,
   ((get_footprint_reprojects demoEnv).2 demoPeriod).2
     ⟨{(0, 0), (1, 0)}, {(0, 0), (1, 0)}⟩ (by decide) (by decide) (by decide)⟩

/-- Claim C10: the truthiness guard of `get_footprint_geojson` rejects an
empty reprojected footprint, so a Feature with an empty geometry is never
emitted at the public interface. -/
theorem get_footprint_geojson_no_empty_geometry :
    (∀ (product_name : String) (year month day : Option Int)
        (period : TimePeriodOverview) (fp : Geometry), fp.isFalsy →
      footprint_feature product_name year month day period (some fp) = none) ∧
    (∀ (env : Env) (product_name : String) (year month day : Option Int)
        (f : FootprintFeature),
      get_footprint_geojson env product_name year month day = some f →
      ¬f.geometry.isFalsy) := by
  constructor
  · intro pn y m d period fp h
    simp [footprint_feature, h]
  · intro env pn y m d f h
    unfold get_footprint_geojson at h
    split at h
    · exact absurd h (by simp)
    · unfold footprint_feature at h
      split at h
      · exact absurd h (by simp)
      · split at h
        · exact absurd h (by simp)
        · rename_i hne
          cases Option.some.inj h
          exact hne

/-- Concrete runs: an empty footprint yields no Feature, and the Feature
produced on `demoEnv` has a non-empty geometry. -/
theorem get_footprint_geojson_no_empty_geometry_witness :
    (⟨∅, ∅⟩ : Geometry).isFalsy ∧
    footprint_feature "demo_scene" none none none demoPeriod (some ⟨∅, ∅⟩) = none ∧
    get_footprint_geojson demoEnv "demo_scene" none none none = some demoFeature ∧
    ¬demoFeature.geometry.isFalsy :=
  ⟨by decide,
   get_footprint_geojson_no_empty_geometry.1 "demo_scene" none none none demoPeriod
     ⟨∅, ∅⟩ (by decide),
   by decide,
   get_footprint_geojson_no_empty_geometry.2 demoEnv "demo_scene" none none none
     demoFeature (by decide)⟩

/-- Claim C1, counterexample: on `demoEnv` the summary is present, the
reprojected footprint is non-empty, and `get_footprint_geojson` emits a
Feature whose `dataset_count` property is the period's `footprint_count`
(2), which differs from the period's `dataset_count` (3) — so the property
is not "equal to the period summary's dataset count" as claimed. -/
theorem footprint_feature_count_counterexample :
    get_summary demoEnv "demo_scene" none none none = some demoPeriod ∧
    get_footprint_of_period demoEnv (some demoPeriod) = some demoFeature.geometry ∧
    ¬demoFeature.geometry.isFalsy ∧
    get_footprint_geojson demoEnv "demo_scene" none none none = some demoFeature ∧
    demoFeature.dataset_count = 2 ∧
    demoPeriod.dataset_count = 3 ∧
    demoFeature.dataset_count ≠ demoPeriod.dataset_count := by
  refine ⟨by decide, by decide, by decide, by decide, rfl, rfl, by decide⟩

/-- Claim C1 as amended: with a present summary and a non-empty reprojected
footprint, `get_footprint_geojson` returns a Feature whose properties are
exactly the period's `footprint_count` (as `dataset_count`), the requested
product name, and the ordered `[year, month, day]` triple with unset levels
as `none`. -/
theorem get_footprint_geojson_feature (env : Env) (product_name : String)
    (year month day : Option Int) (period : TimePeriodOverview) (fp : Geometry)
    (hs : get_summary env product_name year month day = some period)
    (hf : get_footprint_of_period env (some period) = some fp)
    (hne : ¬fp.isFalsy) :
    get_footprint_geojson env product_name year month day =
      some { type := "Feature"
             geometry := fp
             dataset_count := period.footprint_count
             product_name := product_name
             time_spec := [year, month, day] } := by
  simp [get_footprint_geojson, hs, footprint_feature, hf, hne]

/-- Concrete run of the amended C1 on `demoEnv`. -/
theorem get_footprint_geojson_feature_witness :
    get_summary demoEnv "demo_scene" none none none = some demoPeriod ∧
    get_footprint_of_period demoEnv (some demoPeriod) = some demoFeature.geometry ∧
    ¬demoFeature.geometry.isFalsy ∧
    get_footprint_geojson demoEnv "demo_scene" none none none =
      some { type := "Feature"
             geometry := demoFeature.geometry
             dataset_count := demoPeriod.footprint_count
             product_name := "demo_scene"
             time_spec := [none, none, none] } :=
  ⟨by decide, by decide, by decide,
   get_footprint_geojson_feature demoEnv "demo_scene" none none none demoPeriod
     demoFeature.geometry (by decide) (by decide) (by decide)⟩

/-- Python's `min(v :: vs)` (a left fold) is an element of the list. -/
theorem foldl_min_mem (v : Nat) (vs : List Nat) : vs.foldl min v ∈ v :: vs := by
  induction vs generalizing v with
  | nil => simp
  | cons w ws ih =>
    rw [List.foldl_cons]
    rcases List.mem_cons.mp (ih (min v w)) with h1 | h2
    · rw [h1]
      rcases Nat.le_total v w with hle | hle
      · rw [min_eq_left hle]
        exact List.mem_cons_self _ _
      · rw [min_eq_right hle]
        exact List.mem_cons_of_mem _ (List.mem_cons_self _ _)
    · exact List.mem_cons_of_mem _ (List.mem_cons_of_mem _ h2)

/-- Python's `min(v :: vs)` is a lower bound of the list. -/
theorem foldl_min_le (v : Nat) (vs : List Nat) : ∀ x ∈ v :: vs, vs.foldl min v ≤ x := by
  induction vs generalizing v with
  | nil =>
    intro x hx
    rw [List.mem_singleton.mp hx]
    exact Nat.le_refl _
  | cons w ws ih =>
    intro x hx
    rw [List.foldl_cons]
    rcases List.mem_cons.mp hx with h1 | hx2
    · subst h1
      exact Nat.le_trans (ih (min x w) _ (List.mem_cons_self _ _)) (Nat.min_le_left _ _)
    · rcases List.mem_cons.mp hx2 with h2 | h3
      · subst h2
        exact Nat.le_trans (ih (min v x) _ (List.mem_cons_self _ _)) (Nat.min_le_right _ _)
      · exact ih (min v w) x (List.mem_cons_of_mem _ h3)

/-- Python's `max(v :: vs)` (a left fold) is an element of the list. -/
theorem foldl_max_mem (v : Nat) (vs : List Nat) : vs.foldl max v ∈ v :: vs := by
  induction vs generalizing v with
  | nil => simp
  | cons w ws ih =>
    rw [List.foldl_cons]
    rcases List.mem_cons.mp (ih (max v w)) with h1 | h2
    · rw [h1]
      rcases Nat.le_total v w with hle | hle
      · rw [max_eq_right hle]
        exact List.mem_cons_of_mem _ (List.mem_cons_self _ _)
      · rw [max_eq_left hle]
        exact List.mem_cons_self _ _
    · exact List.mem_cons_of_mem _ (List.mem_cons_of_mem _ h2)

/-- Python's `max(v :: vs)` is an upper bound of the list. -/
theorem foldl_le_max (v : Nat) (vs : List Nat) : ∀ x ∈ v :: vs, x ≤ vs.foldl max v := by
  induction vs generalizing v with
  | nil =>
    intro x hx
    rw [List.mem_singleton.mp hx]
    exact Nat.le_refl _
  | cons w ws ih =>
    intro x hx
    rw [List.foldl_cons]
    rcases List.mem_cons.mp hx with h1 | hx2
    · subst h1
      exact Nat.le_trans (Nat.le_max_left _ _) (ih (max x w) _ (List.mem_cons_self _ _))
    · rcases List.mem_cons.mp hx2 with h2 | h3
      · subst h2
        exact Nat.le_trans (Nat.le_max_right _ _) (ih (max v x) _ (List.mem_cons_self _ _))
      · exact ih (max v w) x (List.mem_cons_of_mem _ h3)

/-- With distinct keys, `Counter` indexing recovers each stored count. -/
theorem counterGet_of_nodup (counts : List (String × Nat))
    (h : (counts.map Prod.fst).Nodup) :
    ∀ kv ∈ counts, counterGet counts kv.1 = kv.2 := by
  induction counts with
  | nil => intro kv hkv; simp at hkv
  | cons p rest ih =>
    obtain ⟨k, v⟩ := p
    rw [List.map_cons, List.nodup_cons] at h
    intro kv hkv
    rcases List.mem_cons.mp hkv with h1 | h2
    · subst h1
      simp [counterGet]
    · have hne : k ≠ kv.1 := by
        intro he
        rw [he] at h
        have hkmem := List.mem_map_of_mem Prod.fst h2
        exact h.1 hkmem
      simp only [counterGet, if_neg hne]
      exact ih h.2 kv h2

/-- With distinct keys, the assembled `features` comprehension is exactly
one Feature per counts entry, carrying that entry's code and count. -/
theorem features_map_eq (gfn : String → Geometry) (ri : RegionInfo)
    (counts : List (String × Nat)) (h : (counts.map Prod.fst).Nodup) :
    (counts.map Prod.fst).map (region_feature gfn ri counts) =
      counts.map (fun kv =>
        { type := "Feature", geometry := gfn kv.1, region_code := kv.1,
          label := ri.region_label kv.1, count := kv.2 }) := by
  rw [List.map_map]
  apply List.map_congr_left
  intro kv hkv
  unfold region_feature
  simp only [Function.comp_apply]
  rw [counterGet_of_nodup counts h kv hkv]

/-- With a callable region-geometry value, every entry of the `features`
comprehension succeeds, and the comprehension is the plain map. -/
theorem mapM_region_feature_callable (gfn : String → Geometry) (ri : RegionInfo)
    (counts : List (String × Nat)) (codes : List String) :
    codes.mapM (region_feature_call (.callable gfn) ri counts) =
      .ok (codes.map (region_feature gfn ri counts)) := by
  induction codes with
  | nil => rfl
  | cons c cs ih =>
    rw [List.mapM_cons, ih]
    rfl

/-- Claim C5: for a non-empty counts mapping (with unique region codes, as
`Counter` keys are) and a callable region-geometry function, the
assembled FeatureCollection's `min_count` and `max_count` are the true
minimum and maximum of the counts, and `features` is exactly one Feature
per region code with that region's code, label and count. -/
theorem regions_geojson_minmax_features (region_counts : List (String × Nat))
    (footprint : Option Geometry) (region_info : RegionInfo)
    (gfn : String → Geometry)
    (hg : region_geometry_function region_info footprint = some (.callable gfn))
    (hne : region_counts ≠ [])
    (hnd : (region_counts.map Prod.fst).Nodup) :
    ∃ c : RegionCollection,
      get_regions_geojson_inner region_counts footprint region_info = .ok (some c) ∧
      c.type = "FeatureCollection" ∧
      c.region_type = region_info.name ∧
      c.region_unit_label = region_info.unit_label ∧
      c.min_count ∈ region_counts.map Prod.snd ∧
      (∀ n ∈ region_counts.map Prod.snd, c.min_count ≤ n) ∧
      c.max_count ∈ region_counts.map Prod.snd ∧
      (∀ n ∈ region_counts.map Prod.snd, n ≤ c.max_count) ∧
      c.features = region_counts.map (fun kv =>
        { type := "Feature", geometry := gfn kv.1, region_code := kv.1,
          label := region_info.region_label kv.1, count := kv.2 }) := by
  cases hv : region_counts.map Prod.snd with
  | nil => exact absurd (List.map_eq_nil_iff.mp hv) hne
  | cons v vs =>
    refine ⟨{ type := "FeatureCollection"
              region_type := region_info.name
              region_unit_label := region_info.unit_label
              min_count := vs.foldl min v
              max_count := vs.foldl max v
              features := (region_counts.map Prod.fst).map
                (region_feature gfn region_info region_counts) },
            ?_, rfl, rfl, rfl, ?_, ?_, ?_, ?_, ?_⟩
    · simp only [get_regions_geojson_inner, hg, hv, mapM_region_feature_callable]
    · exact foldl_min_mem v vs
    · exact foldl_min_le v vs
    · exact foldl_max_mem v vs
    · exact foldl_le_max v vs
    · exact features_map_eq gfn region_info region_counts hnd

/-- Concrete run of the assembler on the demo counts `{r1: 1, r2: 2}`. -/
theorem regions_geojson_minmax_features_witness :
    region_geometry_function demoRegionInfo (some ⟨{(0, 0), (1, 0)}, {(0, 0), (1, 0)}⟩) =
      some (.callable (region_geometry_cut ⟨{(0, 0), (1, 0)}, {(0, 0), (1, 0)}⟩ demoExtent)) ∧
    ([("r1", 1), ("r2", 2)] : List (String × Nat)) ≠ [] ∧
    (([("r1", 1), ("r2", 2)] : List (String × Nat)).map Prod.fst).Nodup ∧
    (∃ c : RegionCollection,
      get_regions_geojson_inner [("r1", 1), ("r2", 2)]
          (some ⟨{(0, 0), (1, 0)}, {(0, 0), (1, 0)}⟩) demoRegionInfo = .ok (some c) ∧
      c.type = "FeatureCollection" ∧
      c.region_type = demoRegionInfo.name ∧
      c.region_unit_label = demoRegionInfo.unit_label ∧
      c.min_count ∈ ([("r1", 1), ("r2", 2)] : List (String × Nat)).map Prod.snd ∧
      (∀ n ∈ ([("r1", 1), ("r2", 2)] : List (String × Nat)).map Prod.snd, c.min_count ≤ n) ∧
      c.max_count ∈ ([("r1", 1), ("r2", 2)] : List (String × Nat)).map Prod.snd ∧
      (∀ n ∈ ([("r1", 1), ("r2", 2)] : List (String × Nat)).map Prod.snd, n ≤ c.max_count) ∧
      c.features = ([("r1", 1), ("r2", 2)] : List (String × Nat)).map (fun kv =>
        { type := "Feature"
          geometry := region_geometry_cut ⟨{(0, 0), (1, 0)}, {(0, 0), (1, 0)}⟩ demoExtent kv.1
          region_code := kv.1
          label := demoRegionInfo.region_label kv.1
          count := kv.2 })) :=
  ⟨rfl, by decide, by decide,
   regions_geojson_minmax_features [("r1", 1), ("r2", 2)]
     (some ⟨{(0, 0), (1, 0)}, {(0, 0), (1, 0)}⟩) demoRegionInfo
     (region_geometry_cut ⟨{(0, 0), (1, 0)}, {(0, 0), (1, 0)}⟩ demoExtent)
     rfl (by decide) (by decide)⟩

/-- Claim C6, counterexample: on `noExtentEnv` the summary exists with a
non-empty counts mapping and a present footprint, the region catalog
exists but supplies no geometry function — and `get_regions_geojson`
raises a `TypeError` (the truthy broken closure passes line 196's check
and is called at line 211), rather than returning absence as claimed. -/
theorem get_regions_geojson_absence_counterexample :
    get_summary noExtentEnv "demo_scene" none none none = some demoPeriod ∧
    demoPeriod.region_dataset_counts ≠ [] ∧
    noExtentEnv.region_info_for ⟨"demo_scene"⟩ =
      some { demoRegionInfo with geographic_extent := none } ∧
    get_regions_geojson noExtentEnv "demo_scene" none none none =
      .error (.typeError "NoneType object is not callable") ∧
    get_regions_geojson noExtentEnv "demo_scene" none none none ≠ .ok none := by
  refine ⟨rfl, by decide, rfl, rfl, ?_⟩
  intro h
  rw [show get_regions_geojson noExtentEnv "demo_scene" none none none =
      .error (.typeError "NoneType object is not callable") from rfl] at h
  exact Except.noConfusion h

/-- Claim C6 as amended: `get_regions_geojson` yields absence (`.ok none`,
no exception) for a missing summary; and, when the product resolves, for
an empty region-counts mapping, for a missing region catalog, and for a
catalog with no geometry function provided no reprojected footprint is
available (with a footprint present, that case raises instead). -/
theorem get_regions_geojson_absence (env : Env) (product_name : String)
    (year month day : Option Int) :
    (get_summary env product_name year month day = none →
      get_regions_geojson env product_name year month day = .ok none) ∧
    (∀ period product,
      get_summary env product_name year month day = some period →
      env.get_by_name product_name = some product →
      period.region_dataset_counts = [] →
      get_regions_geojson env product_name year month day = .ok none) ∧
    (∀ period product,
      get_summary env product_name year month day = some period →
      env.get_by_name product_name = some product →
      env.region_info_for product = none →
      get_regions_geojson env product_name year month day = .ok none) ∧
    (∀ period product region_info,
      get_summary env product_name year month day = some period →
      env.get_by_name product_name = some product →
      env.region_info_for product = some region_info →
      region_info.geographic_extent = none →
      get_footprint_of_period env (some period) = none →
      get_regions_geojson env product_name year month day = .ok none) := by
  refine ⟨fun hs => ?_, fun period product hs hp hce => ?_,
          fun period product hs hp hri => ?_, fun period product ri hs hp hri hge hfp => ?_⟩
  · simp [get_regions_geojson, hs]
  · simp [get_regions_geojson, hs, hp, hce]
  · simp [get_regions_geojson, hs, hp, hri]
  · simp [get_regions_geojson, hs, hp, hri, hfp, get_regions_geojson_inner,
          region_geometry_function, hge]

/-- Concrete absence runs: missing summary, empty counts, missing catalog,
and missing geometry function with no footprint each produce `.ok none`. -/
theorem get_regions_geojson_absence_witness :
    (get_summary demoEnv "missing" none none none = none ∧
      get_regions_geojson demoEnv "missing" none none none = .ok none) ∧
    (get_summary noRegionsEnv "demo_scene" none none none = some noRegionsPeriod ∧
      noRegionsPeriod.region_dataset_counts = [] ∧
      get_regions_geojson noRegionsEnv "demo_scene" none none none = .ok none) ∧
    get_regions_geojson noCatalogEnv "demo_scene" none none none = .ok none ∧
    (get_footprint_of_period noExtentNoFootprintEnv (some noFootprintPeriod) = none ∧
      get_regions_geojson noExtentNoFootprintEnv "demo_scene" none none none = .ok none) :=
  ⟨⟨rfl, (get_regions_geojson_absence demoEnv "missing" none none none).1 rfl⟩,
   ⟨rfl, rfl,
    (get_regions_geojson_absence noRegionsEnv "demo_scene" none none none).2.1
      noRegionsPeriod ⟨"demo_scene"⟩ rfl rfl rfl⟩,
   (get_regions_geojson_absence noCatalogEnv "demo_scene" none none none).2.2.1
     demoPeriod ⟨"demo_scene"⟩ rfl rfl rfl,
   ⟨rfl,
    (get_regions_geojson_absence noExtentNoFootprintEnv "demo_scene" none none none).2.2.2
      noFootprintPeriod ⟨"demo_scene"⟩ { demoRegionInfo with geographic_extent := none }
      rfl rfl rfl rfl rfl⟩⟩

/-- Claim C7: a summary for a product the catalog cannot resolve raises the
`RuntimeError` rather than returning absence. -/
theorem get_regions_geojson_unknown_product (env : Env) (product_name : String)
    (year month day : Option Int) (period : TimePeriodOverview)
    (hs : get_summary env product_name year month day = some period)
    (hp : env.get_by_name product_name = none) :
    get_regions_geojson env product_name year month day =
      .error (.runtimeError "Unknown product despite having a summary?" product_name) := by
  simp [get_regions_geojson, hs, hp]

/-- Concrete run: `ghostEnv` has the summary but resolves no product, and
the computation aborts with the `RuntimeError`. -/
theorem get_regions_geojson_unknown_product_witness :
    get_summary ghostEnv "demo_scene" none none none = some demoPeriod ∧
    ghostEnv.get_by_name "demo_scene" = none ∧
    get_regions_geojson ghostEnv "demo_scene" none none none =
      .error (.runtimeError "Unknown product despite having a summary?" "demo_scene") :=
  ⟨rfl, rfl,
   get_regions_geojson_unknown_product ghostEnv "demo_scene" none none none demoPeriod
     rfl rfl⟩

/-- Claim C8: `get_last_updated` consults the override file first — a
parsable content replaces the backend's timestamp; an unparsable one logs
a warning and falls through to the backend's value; a missing file yields
the backend's value with no warning. -/
theorem get_last_updated_override (env : Env) :
    (∀ text d, env.generated_txt = some text → env.parse_date text = some d →
      get_last_updated env = (d, false)) ∧
    (∀ text, env.generated_txt = some text → env.parse_date text = none →
      get_last_updated env = (env.store_last_updated, true)) ∧
    (env.generated_txt = none →
      get_last_updated env = (env.store_last_updated, false)) := by
  refine ⟨fun text d ht hp => ?_, fun text ht hp => ?_, fun ht => ?_⟩
  · simp [get_last_updated, ht, hp]
  · simp [get_last_updated, ht, hp]
  · simp [get_last_updated, ht]

/-- Concrete runs: a parsable override wins, an unparsable one warns and
falls back, a missing file reads the backend. -/
theorem get_last_updated_override_witness :
    (overrideEnv.generated_txt = some "2018-01-01" ∧
      overrideEnv.parse_date "2018-01-01" = some 17532 ∧
      get_last_updated overrideEnv = (17532, false)) ∧
    (badOverrideEnv.generated_txt = some "garbage" ∧
      badOverrideEnv.parse_date "garbage" = none ∧
      get_last_updated badOverrideEnv = (badOverrideEnv.store_last_updated, true)) ∧
    (demoEnv.generated_txt = none ∧
      get_last_updated demoEnv = (demoEnv.store_last_updated, false)) :=
  ⟨⟨rfl, rfl,
    (get_last_updated_override overrideEnv).1 "2018-01-01" 17532 rfl rfl⟩,
   ⟨rfl, rfl,
    (get_last_updated_override badOverrideEnv).2.1 "garbage" rfl rfl⟩,
   ⟨rfl, (get_last_updated_override demoEnv).2.2 rfl⟩⟩

/-- Claim C9: for each cached query, with no prior entry for the key, the
first call invokes the backend; a second call with the same key within the
query's TTL window returns the same value without invoking the backend;
and a call at or after expiry invokes the backend again. -/
theorem cache_ttl_idempotence (q : CachedQuery) {κ β : Type} [DecidableEq κ]
    (compute : κ → β) (st₀ : List (κ × β × Nat)) (k : κ) (t₀ t₁ t₂ : Nat)
    (hk : ∀ e ∈ st₀, e.1 ≠ k)
    (_h01 : t₀ ≤ t₁) (h1 : t₁ < t₀ + queryTTL q) (h2 : t₀ + queryTTL q ≤ t₂) :
    (memoGetOrCompute (queryTTL q) compute st₀ t₀ k).1 = compute k ∧
    (memoGetOrCompute (queryTTL q) compute st₀ t₀ k).2.2 = true ∧
    (memoGetOrCompute (queryTTL q) compute
        (memoGetOrCompute (queryTTL q) compute st₀ t₀ k).2.1 t₁ k).1 =
      (memoGetOrCompute (queryTTL q) compute st₀ t₀ k).1 ∧
    (memoGetOrCompute (queryTTL q) compute
        (memoGetOrCompute (queryTTL q) compute st₀ t₀ k).2.1 t₁ k).2.2 = false ∧
    (memoGetOrCompute (queryTTL q) compute
        (memoGetOrCompute (queryTTL q) compute st₀ t₀ k).2.1 t₂ k).2.2 = true := by
  have hfind0 : st₀.find?
      (fun e => decide (e.1 = k) && decide (t₀ < e.2.2 + queryTTL q)) = none := by
    rw [List.find?_eq_none]
    intro e he
    simp [hk e he]
  have h0 : memoGetOrCompute (queryTTL q) compute st₀ t₀ k =
      (compute k, (k, compute k, t₀) :: st₀, true) := by
    unfold memoGetOrCompute
    rw [hfind0]
  have hfind1 : ((k, compute k, t₀) :: st₀).find?
      (fun e => decide (e.1 = k) && decide (t₁ < e.2.2 + queryTTL q)) =
        some (k, compute k, t₀) := by
    apply List.find?_cons_of_pos
    simp [h1]
  have hA : memoGetOrCompute (queryTTL q) compute ((k, compute k, t₀) :: st₀) t₁ k =
      (compute k, (k, compute k, t₀) :: st₀, false) := by
    unfold memoGetOrCompute
    rw [hfind1]
  have hfind2 : ((k, compute k, t₀) :: st₀).find?
      (fun e => decide (e.1 = k) && decide (t₂ < e.2.2 + queryTTL q)) = none := by
    rw [List.find?_eq_none]
    intro e he
    rcases List.mem_cons.mp he with h | h
    · subst h
      simp [Nat.not_lt.mpr h2]
    · simp [hk e h]
  have hB : memoGetOrCompute (queryTTL q) compute ((k, compute k, t₀) :: st₀) t₂ k =
      (compute k, (k, compute k, t₂) :: (k, compute k, t₀) :: st₀, true) := by
    unfold memoGetOrCompute
    rw [hfind2]
  rw [h0]
  refine ⟨rfl, rfl, ?_, ?_, ?_⟩
  · show (memoGetOrCompute (queryTTL q) compute ((k, compute k, t₀) :: st₀) t₁ k).1 =
      compute k
    rw [hA]
  · show (memoGetOrCompute (queryTTL q) compute ((k, compute k, t₀) :: st₀) t₁ k).2.2 =
      false
    rw [hA]
  · show (memoGetOrCompute (queryTTL q) compute ((k, compute k, t₀) :: st₀) t₂ k).2.2 =
      true
    rw [hB]

/-- Concrete cache run at the summary query's 60 s TTL: a miss at t=0
computes, a repeat at t=59 hits without recomputing, and t=60 recomputes. -/
theorem cache_ttl_idempotence_witness :
    (∀ e ∈ ([] : List (String × Nat × Nat)), e.1 ≠ "demo_scene") ∧
    (0 : Nat) ≤ 59 ∧ 59 < 0 + queryTTL .summary ∧ 0 + queryTTL .summary ≤ 60 ∧
    ((memoGetOrCompute (queryTTL .summary) (fun _ => (7 : Nat)) [] 0 "demo_scene").1 =
        (fun _ => (7 : Nat)) "demo_scene" ∧
      (memoGetOrCompute (queryTTL .summary) (fun _ => (7 : Nat)) [] 0 "demo_scene").2.2 =
        true ∧
      (memoGetOrCompute (queryTTL .summary) (fun _ => (7 : Nat))
          (memoGetOrCompute (queryTTL .summary) (fun _ => (7 : Nat)) [] 0
            "demo_scene").2.1 59 "demo_scene").1 =
        (memoGetOrCompute (queryTTL .summary) (fun _ => (7 : Nat)) [] 0 "demo_scene").1 ∧
      (memoGetOrCompute (queryTTL .summary) (fun _ => (7 : Nat))
          (memoGetOrCompute (queryTTL .summary) (fun _ => (7 : Nat)) [] 0
            "demo_scene").2.1 59 "demo_scene").2.2 = false ∧
      (memoGetOrCompute (queryTTL .summary) (fun _ => (7 : Nat))
          (memoGetOrCompute (queryTTL .summary) (fun _ => (7 : Nat)) [] 0
            "demo_scene").2.1 60 "demo_scene").2.2 = true) :=
  ⟨fun e he => absurd he (List.not_mem_nil e), by decide, by decide, by decide,
   cache_ttl_idempotence .summary (fun _ => (7 : Nat)) [] "demo_scene" 0 59 60
     (fun e he => absurd he (List.not_mem_nil e)) (by decide) (by decide) (by decide)⟩

end Cubedash
